import Mathlib

/-!
Verification development for the MuJoCo plugin collection
(spring-damper passive force plugin, PD-plus-feedforward actuator plugin,
telemetry inspector plugin, and the sensor/controller interface aggregator).

The definitions below are shallow embeddings of the C++ sources:
  - `src/my_plugins/inspector/src/controller_interface.cpp`
  - `src/my_plugins/controller/ctrl_pdff.cc`
  - `src/my_plugins/inspector/src/inspector.cc`
  - `src/my_plugins/damper/spring_damper.cc`
Machine floating-point numbers (`mjtNum` = C `double`) are modelled by exact
arithmetic: rationals where only field operations occur, reals where a square
root (`mju_norm3` / `mju_normalize3`) is involved.  Engine arrays are modelled
as total functions from indices.
-/

namespace ControllerInterface

/-- The composite sensor key computed by `ControllerInterface::init` and
`ControllerInterface::updateSensor`:
`long long map_id = obj_type << 32 + obj_id;`.
In C++ the additive operator binds tighter than the shift, so this parses as
`obj_type << (32 + obj_id)`, i.e. `obj_type * 2 ^ (32 + obj_id)` in idealized
integer arithmetic (the shift count 32 + obj_id always exceeds the 31-bit
limit of `int`, so the concrete C++ value is not even well defined; the
idealized value is an upper model of the intent of the expression as
written). -/
def map_id (obj_type obj_id : Nat) : Nat := obj_type * 2 ^ (32 + obj_id)

/-- The same expression under x86 machine semantics for `int` shifts, where
the shift count is taken modulo the 32-bit operand width. -/
def map_id_masked (obj_type obj_id : Nat) : Nat :=
  (obj_type * 2 ^ ((32 + obj_id) % 32)) % 2 ^ 32

/-- The MuJoCo sensor types dispatched on by `updateSensor` (values of the
`mjtSensor` enum relevant to the switch), plus `other` for every sensor type
that falls into the `default:` branch. -/
inductive SensType where
  | jointpos | jointvel | jointactfrc
  | accelerometer | gyro | magnetometer
  | framepos | framequat | framelinvel | frameangvel
  | force | torque
  | other
deriving DecidableEq, Repr

/-- One row of the model's sensor table: `m->sensor_type[i]`,
`m->sensor_dim[i]`, `m->sensor_objtype[i]`, `m->sensor_objid[i]`. -/
structure MSensor where
  stype : SensType
  dim : Nat
  objtype : Nat
  objid : Nat
deriving DecidableEq, Repr

/-- The part of `mjModel` read by `updateSensor`: the sensor table. -/
structure CIModel where
  sensors : List MSensor
deriving DecidableEq, Repr

/-- 3-vector of sensor readings (`Eigen::Vector3d` in the host structs). -/
structure V3Q where
  x : ℚ
  y : ℚ
  z : ℚ
deriving DecidableEq, Repr

/-- Quaternion of sensor readings (`Eigen::Quaterniond`). -/
structure QuatQ where
  w : ℚ
  x : ℚ
  y : ℚ
  z : ℚ
deriving DecidableEq, Repr

/-- `JointSensor` record: per-joint position/velocity/effort scalars, as
written by the `mjSENS_JOINTPOS`/`JOINTVEL`/`JOINTACTFRC` cases. -/
structure JointSensor where
  position : ℚ := 0
  velocity : ℚ := 0
  effort : ℚ := 0
deriving DecidableEq, Repr

/-- `ImuSensor` record: accelerometer / gyro / magnetometer 3-vectors. -/
structure ImuSensor where
  accel : V3Q := ⟨0, 0, 0⟩
  gyro : V3Q := ⟨0, 0, 0⟩
  magnet : V3Q := ⟨0, 0, 0⟩
deriving DecidableEq, Repr

/-- `Pose` part of a `Frame` record: position and orientation quaternion. -/
structure Pose where
  position : V3Q := ⟨0, 0, 0⟩
  orientation : QuatQ := ⟨1, 0, 0, 0⟩
deriving DecidableEq, Repr

/-- `Twist` part of a `Frame` record: linear and angular velocity. -/
structure Twist where
  linear : V3Q := ⟨0, 0, 0⟩
  angular : V3Q := ⟨0, 0, 0⟩
deriving DecidableEq, Repr

/-- `Frame` record: pose and twist, as written by the frame sensor cases. -/
structure Frame where
  pose : Pose := {}
  twist : Twist := {}
deriving DecidableEq, Repr

/-- `EffortSensor` record: force and torque 3-vectors. -/
structure EffortSensor where
  force : V3Q := ⟨0, 0, 0⟩
  torque : V3Q := ⟨0, 0, 0⟩
deriving DecidableEq, Repr

/-- The four per-bucket record maps of `ControllerInterface`, keyed by
`map_id`.  C++ `std::unordered_map` with `operator[]` default-inserts a
value-initialized record, so each map is modelled as a total function from
keys to records, defaulting to the zero record. -/
structure CIState where
  sensor_time : ℚ := 0
  joint_sensor_map : Nat → JointSensor := fun _ => {}
  sensor_imu_map : Nat → ImuSensor := fun _ => {}
  state_frame_map : Nat → Frame := fun _ => {}
  effort_sensor_map : Nat → EffortSensor := fun _ => {}

/-- Point update of a keyed map (the effect of `map[key] = ...` through
`operator[]`). -/
def mapUpdate {α : Type} (f : Nat → α) (key : Nat) (v : α) : Nat → α :=
  fun j => if j = key then v else f j

/-- The body of the per-sensor `switch` in `updateSensor`, acting at flat
buffer offset `di`.  Faithful to the source, including the missing `break`
after the `mjSENS_MAGNETOMETER` case, which falls through into the
`mjSENS_FRAMEPOS` case. -/
def updateOne (sensordata : Nat → ℚ) (s : CIState) (di : Nat) (sen : MSensor) :
    CIState :=
  let key := map_id sen.objtype sen.objid
  match sen.stype with
  | .jointpos =>
      { s with joint_sensor_map := mapUpdate s.joint_sensor_map key <|
          { s.joint_sensor_map key with position := sensordata di } }
  | .jointvel =>
      { s with joint_sensor_map := mapUpdate s.joint_sensor_map key <|
          { s.joint_sensor_map key with velocity := sensordata di } }
  | .jointactfrc =>
      { s with joint_sensor_map := mapUpdate s.joint_sensor_map key <|
          { s.joint_sensor_map key with effort := sensordata di } }
  | .accelerometer =>
      { s with sensor_imu_map := mapUpdate s.sensor_imu_map key <|
          { s.sensor_imu_map key with
              accel := ⟨sensordata di, sensordata (di+1), sensordata (di+2)⟩ } }
  | .gyro =>
      { s with sensor_imu_map := mapUpdate s.sensor_imu_map key <|
          { s.sensor_imu_map key with
              gyro := ⟨sensordata di, sensordata (di+1), sensordata (di+2)⟩ } }
  | .magnetometer =>
      let s1 := { s with sensor_imu_map := mapUpdate s.sensor_imu_map key <|
          { s.sensor_imu_map key with
              magnet := ⟨sensordata di, sensordata (di+1), sensordata (di+2)⟩ } }
      { s1 with state_frame_map := mapUpdate s1.state_frame_map key <|
          { s1.state_frame_map key with pose :=
              { (s1.state_frame_map key).pose with
                  position := ⟨sensordata di, sensordata (di+1), sensordata (di+2)⟩ } } }
  | .framepos =>
      { s with state_frame_map := mapUpdate s.state_frame_map key <|
          { s.state_frame_map key with pose :=
              { (s.state_frame_map key).pose with
                  position := ⟨sensordata di, sensordata (di+1), sensordata (di+2)⟩ } } }
  | .framequat =>
      { s with state_frame_map := mapUpdate s.state_frame_map key <|
          { s.state_frame_map key with pose :=
              { (s.state_frame_map key).pose with
                  orientation := ⟨sensordata di, sensordata (di+1),
                                  sensordata (di+2), sensordata (di+3)⟩ } } }
  | .framelinvel =>
      { s with state_frame_map := mapUpdate s.state_frame_map key <|
          { s.state_frame_map key with twist :=
              { (s.state_frame_map key).twist with
                  linear := ⟨sensordata di, sensordata (di+1), sensordata (di+2)⟩ } } }
  | .frameangvel =>
      { s with state_frame_map := mapUpdate s.state_frame_map key <|
          { s.state_frame_map key with twist :=
              { (s.state_frame_map key).twist with
                  angular := ⟨sensordata di, sensordata (di+1), sensordata (di+2)⟩ } } }
  | .force =>
      { s with effort_sensor_map := mapUpdate s.effort_sensor_map key <|
          { s.effort_sensor_map key with
              force := ⟨sensordata di, sensordata (di+1), sensordata (di+2)⟩ } }
  | .torque =>
      { s with effort_sensor_map := mapUpdate s.effort_sensor_map key <|
          { s.effort_sensor_map key with
              torque := ⟨sensordata di, sensordata (di+1), sensordata (di+2)⟩ } }
  | .other => s

/-- The sensor loop of `updateSensor`: iterate over the sensor table,
dispatching each sensor and advancing the running offset `data_index` by the
sensor's declared dimensionality. -/
def updateSensorAux (sensordata : Nat → ℚ) :
    CIState × Nat → List MSensor → CIState × Nat
  | acc, [] => acc
  | (s, di), sen :: rest =>
      updateSensorAux sensordata (updateOne sensordata s di sen, di + sen.dim) rest

/-- `ControllerInterface::updateSensor`: record the simulation time, then run
the dispatch loop starting at offset 0. -/
def updateSensor (m : CIModel) (sensordata : Nat → ℚ) (time : ℚ)
    (s : CIState) : CIState :=
  (updateSensorAux sensordata ({ s with sensor_time := time }, 0) m.sensors).1

/-- Claim C1: the composite sensor key combination is claimed injective over
the (object-type, object-id) pairs produced during sensor scanning.  It is
not: because `+` binds tighter than `<<` in C++, `obj_type << 32 + obj_id`
is `obj_type << (32 + obj_id)`, and the distinct pairs
(objtype = 2 = mjOBJ_XBODY, objid = 0) and (objtype = 1 = mjOBJ_BODY,
objid = 1) — both legitimate frame-sensor attachment targets — collide, in
idealized arithmetic and under masked x86 shift semantics alike. -/
theorem map_id_collision :
    map_id 2 0 = map_id 1 1 ∧ map_id_masked 2 0 = map_id_masked 1 1 ∧
      ((2, 0) : Nat × Nat) ≠ (1, 1) := by
  refine ⟨by norm_num [map_id], by norm_num [map_id_masked], by decide⟩

/-- Concrete scene for claim C2: a single magnetometer sensor (dimension 3)
attached to site 0 (`mjOBJ_SITE` = 6), with readings (5, 6, 7). -/
def magModel : CIModel := ⟨[⟨.magnetometer, 3, 6, 0⟩]⟩

/-- Sensor-data buffer holding the magnetometer readings (5, 6, 7). -/
def magData : Nat → ℚ := fun i => if i = 0 then 5 else if i = 1 then 6 else 7

/-- Initial controller-interface state: all records value-initialized. -/
def ciInit : CIState := {}

/-- Claim C2: each sensor type is claimed to write fields of exactly one
bucket record, never a field of a different bucket's record.  The
`mjSENS_MAGNETOMETER` case of `updateSensor` is missing a `break` and falls
through into the `mjSENS_FRAMEPOS` case: processing a single magnetometer
sensor writes the IMU record's `magnet` field and also the frame record's
`pose.position` at the same key (which started out zero). -/
theorem magnetometer_cross_bucket_write :
    ((updateSensor magModel magData 0 ciInit).sensor_imu_map
        (map_id 6 0)).magnet = ⟨5, 6, 7⟩ ∧
    ((updateSensor magModel magData 0 ciInit).state_frame_map
        (map_id 6 0)).pose.position = ⟨5, 6, 7⟩ ∧
    (ciInit.state_frame_map (map_id 6 0)).pose.position = ⟨0, 0, 0⟩ := by
  refine ⟨?_, ?_, rfl⟩ <;>
    simp [updateSensor, updateSensorAux, updateOne, mapUpdate, magModel,
      magData, ciInit]

end ControllerInterface

namespace PdFf

/-- `std::tolower` as applied to the ASCII actuator-name characters in
`EndsWithLower` (C locale: only A-Z are mapped). -/
def toLowerChar (c : Char) : Char :=
  if 'A' ≤ c ∧ c ≤ 'Z' then Char.ofNat (c.toNat + 32) else c

/-- `EndsWithLower(name, suffix)` from `ctrl_pdff.cc`: case-insensitive
comparison of the last `suffix.size()` characters of `name` against
`suffix`; false when the suffix is longer than the name. -/
def endsWithLower (name sfx : List Char) : Bool :=
  if sfx.length ≤ name.length then
    (name.drop (name.length - sfx.length)).map toLowerChar == sfx.map toLowerChar
  else false

/-- The reference-position channel naming convention: suffix `_qref` or
`:qref`, case-insensitive. -/
def qrefTest (n : List Char) : Bool :=
  endsWithLower n ("_qref".toList) || endsWithLower n (":qref".toList)

/-- The reference-velocity channel naming convention: suffix `_qdref` or
`:qdref`. -/
def qdrefTest (n : List Char) : Bool :=
  endsWithLower n ("_qdref".toList) || endsWithLower n (":qdref".toList)

/-- The feed-forward-torque channel naming convention: suffix `_tau` or
`:tau`. -/
def tauTest (n : List Char) : Bool :=
  endsWithLower n ("_tau".toList) || endsWithLower n (":tau".toList)

/-- The part of `mjModel` read by `PdFf::Create`: number of actuators,
per-actuator owning plugin instance (`m->actuator_plugin`, -1 when none)
and per-actuator name (`ActName`). -/
structure ActModel where
  nu : Nat
  actuator_plugin : Nat → Int
  actuator_name : Nat → List Char

/-- The actuators bound to one plugin instance, in host enumeration order,
with their names: the `for (i. < m->nu) if (actuator_plugin[i] != instance)
continue;` iteration of `PdFf::Create`. -/
def boundActs (m : ActModel) (inst : Int) : List (Nat × List Char) :=
  ((List.range m.nu).filter fun i => m.actuator_plugin i == inst).map
    fun i => (i, m.actuator_name i)

/-- Accumulator of the classification loop: (id_qref, id_qdref, id_tau). -/
abbrev Acc := Int × Int × Int

/-- One iteration of the suffix-classification loop in `PdFf::Create`:
the if/else-if chain testing `_qref`, then `_qdref`, then `_tau`. -/
def classifyStep (acc : Acc) (p : Nat × List Char) : Acc :=
  if qrefTest p.2 then ((p.1 : Int), acc.2.1, acc.2.2)
  else if qdrefTest p.2 then (acc.1, (p.1 : Int), acc.2.2)
  else if tauTest p.2 then (acc.1, acc.2.1, (p.1 : Int))
  else acc

/-- The whole classification loop, starting from (-1, -1, -1). -/
def classifyList (l : List (Nat × List Char)) : Acc :=
  l.foldl classifyStep (-1, -1, -1)

/-- Output-target resolution of `PdFf::Create`: an explicit `target` name is
looked up among the instance's actuators; otherwise `id_tau` is used when
resolved; otherwise the first bound actuator; -1 when nothing matches. -/
def resolveTarget (acts : List (Nat × List Char)) (targetName : Option (List Char))
    (tauId : Int) : Int :=
  match targetName with
  | some tn =>
      match acts.find? (fun p => p.2 == tn) with
      | some p => (p.1 : Int)
      | none => -1
  | none =>
      if 0 ≤ tauId then tauId
      else
        match acts.head? with
        | some p => (p.1 : Int)
        | none => -1

/-- A successfully created `PdFf` object: gains and the four resolved
channel ids. -/
structure PdFfInst where
  kp : ℚ
  kd : ℚ
  id_qref : Int
  id_qdref : Int
  id_tau : Int
  id_target : Int
deriving DecidableEq, Repr

/-- `PdFf::Create`: classify the instance's actuators, resolve the output
target, and fail (return no instance) when the target or any of the three
input channels is unresolved. -/
def Create (m : ActModel) (inst : Int) (kp kd : ℚ)
    (targetName : Option (List Char)) : Option PdFfInst :=
  let acts := boundActs m inst
  let c := classifyList acts
  let idTarget := resolveTarget acts targetName c.2.2
  if idTarget < 0 then none
  else if c.1 < 0 ∨ c.2.1 < 0 ∨ c.2.2 < 0 then none
  else some ⟨kp, kd, c.1, c.2.1, c.2.2, idTarget⟩

/-- The part of `mjData` read and written by `PdFf::Compute`: control
inputs, actuator-space measured length/velocity, and the actuator force
accumulator. -/
structure PData where
  ctrl : Int → ℚ
  actuator_length : Int → ℚ
  actuator_velocity : Int → ℚ
  actuator_force : Int → ℚ

/-- The PD-plus-feedforward control value computed by `PdFf::Compute`:
`tau = kp*(q_ref - q_meas) + kd*(qd_ref - qd_meas) + tau_ff`, with the three
references read from the bound input channels' `ctrl` slots and the
measurements from the target channel's feedback. -/
def tauOf (inst : PdFfInst) (d : PData) : ℚ :=
  inst.kp * (d.ctrl inst.id_qref - d.actuator_length inst.id_target)
    + inst.kd * (d.ctrl inst.id_qdref - d.actuator_velocity inst.id_target)
    + d.ctrl inst.id_tau

/-- `PdFf::Compute`: add `tau` into the target's force accumulator, then
overwrite the two input-only channels' force slots with zero (in source
order). -/
def Compute (inst : PdFfInst) (d : PData) : PData :=
  let f1 : Int → ℚ := fun i =>
    if i = inst.id_target then d.actuator_force i + tauOf inst d
    else d.actuator_force i
  let f2 : Int → ℚ := fun i => if i = inst.id_qref then 0 else f1 i
  let f3 : Int → ℚ := fun i => if i = inst.id_qdref then 0 else f2 i
  { d with actuator_force := f3 }


/-- A successful `endsWithLower` means the lowered suffix is a list suffix of
the lowered name. -/
theorem endsWithLower_suffix {n s : List Char} (h : endsWithLower n s = true) :
    s.map toLowerChar <:+ n.map toLowerChar := by
  unfold endsWithLower at h
  split at h
  · have heq : (n.drop (n.length - s.length)).map toLowerChar = s.map toLowerChar := by
      simpa using h
    rw [← heq, List.map_drop]
    exact List.drop_suffix _ _
  · cases h

/-- Two suffixes of one list are suffix-related, shorter of longer. -/
theorem suffix_of_suffix_le {α : Type} {l₁ l₂ l : List α} (h₁ : l₁ <:+ l)
    (h₂ : l₂ <:+ l) (hle : l₁.length ≤ l₂.length) : l₁ <:+ l₂ := by
  obtain ⟨t₁, ht₁⟩ := h₁
  obtain ⟨t₂, ht₂⟩ := h₂
  have e₁ : l.drop t₁.length = l₁ := by rw [← ht₁]; exact List.drop_left t₁ l₁
  have e₂ : l.drop t₂.length = l₂ := by rw [← ht₂]; exact List.drop_left t₂ l₂
  have c₁ : t₁.length + l₁.length = l.length := by
    rw [← ht₁]; simp
  have c₂ : t₂.length + l₂.length = l.length := by
    rw [← ht₂]; simp
  have hd : l₂.drop (t₁.length - t₂.length) = l₁ := by
    rw [← e₂, List.drop_drop, show t₂.length + (t₁.length - t₂.length) = t₁.length
      from by omega, e₁]
  rw [← hd]
  exact List.drop_suffix _ _

/-- Incompatibility of two naming conventions: no name passes both suffix
tests when neither lowered suffix is a suffix of the other. -/
theorem not_both_ends {n s₁ s₂ : List Char} (h₁ : endsWithLower n s₁ = true)
    (h₂ : endsWithLower n s₂ = true) (hle : s₁.length ≤ s₂.length)
    (hns : ¬ (s₁.map toLowerChar <:+ s₂.map toLowerChar)) : False := by
  refine hns (suffix_of_suffix_le (endsWithLower_suffix h₁) (endsWithLower_suffix h₂) ?_)
  simpa using hle

/-- A `_tau`/`:tau`-suffixed name is not classified as a qref channel. -/
theorem tauTest_not_qrefTest {n : List Char} (h : tauTest n = true) :
    qrefTest n = false := by
  cases hq : qrefTest n
  · rfl
  · exfalso
    rcases Bool.or_eq_true_iff.mp h with h1 | h1 <;>
      rcases Bool.or_eq_true_iff.mp hq with h2 | h2 <;>
        exact not_both_ends h1 h2 (by decide) (by decide)

/-- A `_tau`/`:tau`-suffixed name is not classified as a qdref channel. -/
theorem tauTest_not_qdrefTest {n : List Char} (h : tauTest n = true) :
    qdrefTest n = false := by
  cases hq : qdrefTest n
  · rfl
  · exfalso
    rcases Bool.or_eq_true_iff.mp h with h1 | h1 <;>
      rcases Bool.or_eq_true_iff.mp hq with h2 | h2 <;>
        exact not_both_ends h1 h2 (by decide) (by decide)

/-- A `_qdref`/`:qdref`-suffixed name is not classified as a qref channel. -/
theorem qdrefTest_not_qrefTest {n : List Char} (h : qdrefTest n = true) :
    qrefTest n = false := by
  cases hq : qrefTest n
  · rfl
  · exfalso
    rcases Bool.or_eq_true_iff.mp h with h1 | h1 <;>
      rcases Bool.or_eq_true_iff.mp hq with h2 | h2 <;>
        exact not_both_ends h2 h1 (by decide) (by decide)

/-- Generic last-match characterization of the classification fold: a
component of the accumulator that a step overwrites exactly when predicate
`q` holds ends up holding the last matching actuator id. -/
theorem foldl_last_set (g : Acc → Int) (q : Nat × List Char → Bool)
    (hstep : ∀ a p, g (classifyStep a p) = if q p then (p.1 : Int) else g a) :
    ∀ (l : List (Nat × List Char)) (a : Acc),
      g (l.foldl classifyStep a) =
        match l.reverse.find? q with
        | some p => (p.1 : Int)
        | none => g a := by
  intro l
  induction l with
  | nil => intro a; rfl
  | cons p l ih =>
      intro a
      rw [List.foldl_cons, ih, List.reverse_cons, List.find?_append]
      cases h : l.reverse.find? q with
      | some r => simp [h]
      | none =>
          cases hq : q p <;> simp [h, hq, hstep, List.find?_cons]

/-- The qref component of a classification step. -/
theorem classifyStep_fst (a : Acc) (p : Nat × List Char) :
    (classifyStep a p).1 = if qrefTest p.2 then (p.1 : Int) else a.1 := by
  simp only [classifyStep]
  split_ifs <;> rfl

/-- The qdref component of a classification step. -/
theorem classifyStep_snd_fst (a : Acc) (p : Nat × List Char) :
    (classifyStep a p).2.1 = if qdrefTest p.2 then (p.1 : Int) else a.2.1 := by
  simp only [classifyStep]
  split_ifs with h1 h2 h2 h3
  · exact absurd h1 (by simp [qdrefTest_not_qrefTest h2])
  · rfl
  · rfl
  · rfl
  · rfl

/-- The tau component of a classification step. -/
theorem classifyStep_snd_snd (a : Acc) (p : Nat × List Char) :
    (classifyStep a p).2.2 = if tauTest p.2 then (p.1 : Int) else a.2.2 := by
  simp only [classifyStep]
  split_ifs with h1 h2 h2 h3 h3
  · exact absurd h1 (by simp [tauTest_not_qrefTest h2])
  · rfl
  · exact absurd h2 (by simp [tauTest_not_qdrefTest h3])
  · rfl
  · rfl
  · rfl

/-- Generic negativity characterization of a classification component: it
stays -1 exactly when no bound actuator matches the component's naming
convention. -/
theorem classify_component_neg_iff (g : Acc → Int) (q : Nat × List Char → Bool)
    (hstep : ∀ a p, g (classifyStep a p) = if q p then (p.1 : Int) else g a)
    (hinit : g (-1, -1, -1) = -1) (l : List (Nat × List Char)) :
    g (l.foldl classifyStep (-1, -1, -1)) < 0 ↔ ¬ ∃ p ∈ l, q p = true := by
  rw [foldl_last_set g q hstep l (-1, -1, -1)]
  cases hf : l.reverse.find? q with
  | some p =>
      simp only [hf]
      constructor
      · intro h; exact absurd h (not_lt.mpr (Int.natCast_nonneg p.1))
      · intro hn
        exact absurd ⟨p, List.mem_reverse.mp (List.mem_of_find?_eq_some hf),
          List.find?_some hf⟩ hn
  | none =>
      simp only [hf, hinit]
      constructor
      · rintro - ⟨p, hp, hq⟩
        have := List.find?_eq_none.mp hf p (List.mem_reverse.mpr hp)
        simp [hq] at this
      · intro _
        omega

/-- The qref component of the classification loop is unresolved iff no bound
actuator carries the qref suffix. -/
theorem classify_qref_neg (l : List (Nat × List Char)) :
    (classifyList l).1 < 0 ↔ ¬ ∃ p ∈ l, qrefTest p.2 = true :=
  classify_component_neg_iff (fun a => a.1) (fun p => qrefTest p.2)
    classifyStep_fst rfl l

/-- The qdref component of the classification loop is unresolved iff no
bound actuator carries the qdref suffix. -/
theorem classify_qdref_neg (l : List (Nat × List Char)) :
    (classifyList l).2.1 < 0 ↔ ¬ ∃ p ∈ l, qdrefTest p.2 = true :=
  classify_component_neg_iff (fun a => a.2.1) (fun p => qdrefTest p.2)
    classifyStep_snd_fst rfl l

/-- The tau component of the classification loop is unresolved iff no bound
actuator carries the tau suffix. -/
theorem classify_tau_neg (l : List (Nat × List Char)) :
    (classifyList l).2.2 < 0 ↔ ¬ ∃ p ∈ l, tauTest p.2 = true :=
  classify_component_neg_iff (fun a => a.2.2) (fun p => tauTest p.2)
    classifyStep_snd_snd rfl l

/-- When a unique bound actuator carries the tau suffix, the tau component
of the classification loop resolves to exactly that actuator, wherever it
appears in the enumeration. -/
theorem classify_tau_eq_of_unique {l : List (Nat × List Char)}
    {p : Nat × List Char} (hp : p ∈ l) (ht : tauTest p.2 = true)
    (huniq : ∀ q ∈ l, tauTest q.2 = true → q = p) :
    (classifyList l).2.2 = (p.1 : Int) := by
  rw [classifyList, foldl_last_set (fun a => a.2.2) (fun r => tauTest r.2)
    classifyStep_snd_snd l (-1, -1, -1)]
  cases hf : l.reverse.find? (fun r => tauTest r.2) with
  | some r =>
      have hr := huniq r (List.mem_reverse.mp (List.mem_of_find?_eq_some hf))
        (by simpa using List.find?_some hf)
      simp only [hf, hr]
  | none =>
      exfalso
      have := List.find?_eq_none.mp hf p (List.mem_reverse.mpr hp)
      simp [ht] at this

/-- Having no resolvable output target, in the vocabulary of the binding
claim: an explicit `target` name matches no actuator of the instance, or
(with no explicit target) there is neither a tau-suffixed actuator nor any
bound actuator at all to fall back on. -/
def targetUnresolvable (m : ActModel) (inst : Int)
    (targetName : Option (List Char)) : Prop :=
  match targetName with
  | some tn => (boundActs m inst).find? (fun p => p.2 == tn) = none
  | none =>
      (¬ ∃ p ∈ boundActs m inst, tauTest p.2 = true) ∧ boundActs m inst = []

/-- The resolved target id is negative exactly when no target is
resolvable. -/
theorem resolveTarget_neg (m : ActModel) (inst : Int)
    (targetName : Option (List Char)) :
    resolveTarget (boundActs m inst) targetName
        (classifyList (boundActs m inst)).2.2 < 0 ↔
      targetUnresolvable m inst targetName := by
  cases targetName with
  | some n =>
      simp only [resolveTarget, targetUnresolvable]
      cases hf : (boundActs m inst).find? (fun p => p.2 == n) with
      | some p =>
          simp only [hf]
          constructor
          · intro h
            exact absurd h (not_lt.mpr (Int.natCast_nonneg p.1))
          · intro h; cases h
      | none =>
          simp only [hf]
          norm_num
  | none =>
      simp only [resolveTarget, targetUnresolvable]
      by_cases h0 : (0 : Int) ≤ (classifyList (boundActs m inst)).2.2
      · rw [if_pos h0]
        constructor
        · intro h; omega
        · rintro ⟨hne, -⟩
          exact absurd ((classify_tau_neg (boundActs m inst)).mpr hne) (by omega)
      · rw [if_neg h0]
        cases hh : (boundActs m inst).head? with
        | some p =>
            simp only [hh]
            constructor
            · intro h
              exact absurd h (not_lt.mpr (Int.natCast_nonneg p.1))
            · rintro ⟨-, hnil⟩
              rw [hnil] at hh
              cases hh
        | none =>
            simp only [hh]
            constructor
            · intro _
              exact ⟨(classify_tau_neg (boundActs m inst)).mp (by omega),
                List.head?_eq_none_iff.mp hh⟩
            · intro _; omega

/-- Claim C7: `PdFf::Create` returns no instance exactly when one of the
three required input channels (`qref`, `qdref`, `tau` suffixes) is
unresolved among the instance's bound actuators, or no output target is
resolvable; on failure nothing is created (there is no partial binding — the
whole instance is absent).  The source additionally emits a per-instance
`mju_warning` on each failure path, which is outside the state model. -/
theorem pdff_create_failure_iff (m : ActModel) (inst : Int) (kp kd : ℚ)
    (targetName : Option (List Char)) :
    Create m inst kp kd targetName = none ↔
      ((¬ ∃ p ∈ boundActs m inst, qrefTest p.2 = true) ∨
       (¬ ∃ p ∈ boundActs m inst, qdrefTest p.2 = true) ∨
       (¬ ∃ p ∈ boundActs m inst, tauTest p.2 = true) ∨
       targetUnresolvable m inst targetName) := by
  have hcreate : Create m inst kp kd targetName = none ↔
      (resolveTarget (boundActs m inst) targetName
          (classifyList (boundActs m inst)).2.2 < 0 ∨
        ((classifyList (boundActs m inst)).1 < 0 ∨
         (classifyList (boundActs m inst)).2.1 < 0 ∨
         (classifyList (boundActs m inst)).2.2 < 0)) := by
    simp only [Create]
    split_ifs with h1 h2
    · exact iff_of_true rfl (Or.inl h1)
    · exact iff_of_true rfl (Or.inr h2)
    · exact iff_of_false (by simp) (by tauto)
  rw [hcreate]
  constructor
  · rintro (ht | (hq | hqd | htau))
    · exact Or.inr (Or.inr (Or.inr ((resolveTarget_neg m inst targetName).mp ht)))
    · exact Or.inl ((classify_qref_neg _).mp hq)
    · exact Or.inr (Or.inl ((classify_qdref_neg _).mp hqd))
    · exact Or.inr (Or.inr (Or.inl ((classify_tau_neg _).mp htau)))
  · rintro (hq | hqd | htau | ht)
    · exact Or.inr (Or.inl ((classify_qref_neg _).mpr hq))
    · exact Or.inr (Or.inr (Or.inl ((classify_qdref_neg _).mpr hqd)))
    · exact Or.inr (Or.inr (Or.inr ((classify_tau_neg _).mpr htau)))
    · exact Or.inl ((resolveTarget_neg m inst targetName).mpr ht)

/-- Concrete model for the C7 witness: one instance owning two actuators
named `a_qref` and `a_qdref`, with no tau-suffixed actuator. -/
def mC7 : ActModel :=
  ⟨2, fun _ => 0, fun i => if i = 0 then ("a_qref".toList) else ("a_qdref".toList)⟩

/-- Witness for the creation-failure characterization: on `mC7` the tau
channel is missing, so `Create` fails. -/
theorem pdff_create_failure_iff_witness : Create mC7 0 1 1 none = none :=
  (pdff_create_failure_iff mC7 0 1 1 none).mpr
    (Or.inr (Or.inr (Or.inl (by decide))))

/-- Claim C6: with no explicit `target` configured, a tau-suffixed actuator
bound to the instance is resolved as the output target regardless of its
position in the host enumeration order (stated here for a unique
tau-suffixed actuator, as in the spec's four-actuator scenario); only when
no tau-suffixed actuator exists does the resolution fall back to the first
bound actuator; and a successfully created instance's `id_target` is exactly
this resolved target. -/
theorem pdff_target_resolution (m : ActModel) (inst : Int) :
    (∀ p ∈ boundActs m inst, tauTest p.2 = true →
        (∀ q ∈ boundActs m inst, tauTest q.2 = true → q = p) →
        resolveTarget (boundActs m inst) none
            (classifyList (boundActs m inst)).2.2 = (p.1 : Int))
    ∧ ((∀ p ∈ boundActs m inst, tauTest p.2 = false) →
        ∀ p₀, (boundActs m inst).head? = some p₀ →
        resolveTarget (boundActs m inst) none
            (classifyList (boundActs m inst)).2.2 = (p₀.1 : Int))
    ∧ (∀ (kp kd : ℚ) (targetName : Option (List Char)) (instR : PdFfInst),
        Create m inst kp kd targetName = some instR →
        instR.id_target = resolveTarget (boundActs m inst) targetName
            (classifyList (boundActs m inst)).2.2) := by
  refine ⟨?_, ?_, ?_⟩
  · intro p hp ht huniq
    rw [classify_tau_eq_of_unique hp ht huniq]
    simp only [resolveTarget]
    rw [if_pos (Int.natCast_nonneg p.1)]
  · intro hall p₀ hh
    have hneg : (classifyList (boundActs m inst)).2.2 < 0 :=
      (classify_tau_neg (boundActs m inst)).mpr
        (by rintro ⟨p, hp, ht⟩; simp [hall p hp] at ht)
    simp only [resolveTarget]
    rw [if_neg (by omega), hh]
  · intro kp kd targetName instR hc
    simp only [Create] at hc
    split_ifs at hc
    cases hc
    rfl

/-- Concrete model for the C6 witness: four actuators of one instance,
enumerated in the order `a_other`, `a_tau`, `a_qref`, `a_qdref`, so the
tau-suffixed actuator is not the first bound one. -/
def mC6 : ActModel :=
  ⟨4, fun _ => 0, fun i =>
    if i = 0 then ("a_other".toList)
    else if i = 1 then ("a_tau".toList)
    else if i = 2 then ("a_qref".toList)
    else ("a_qdref".toList)⟩

/-- Witness for the target-resolution theorem: on `mC6` the resolved target
is actuator 1 (`a_tau`), not actuator 0 (`a_other`), even though `a_other`
is enumerated first. -/
theorem pdff_target_resolution_witness :
    ((1 : Nat), "a_tau".toList) ∈ boundActs mC6 0 ∧
    tauTest ("a_tau".toList) = true ∧
    resolveTarget (boundActs mC6 0) none
        (classifyList (boundActs mC6 0)).2.2 = 1 :=
  ⟨by decide, by decide,
    (pdff_target_resolution mC6 0).1 (1, "a_tau".toList) (by decide) (by decide)
      (by decide)⟩

/-- Concrete model for claim C3: one instance owning actuators named
`a_qref`, `a_qdref`, `a_tau`, `a_other` (ids 0..3), configured with
kp = 2, kd = 1/2 and an explicit `target` naming the `a_qref` actuator. -/
def mC3 : ActModel :=
  ⟨4, fun _ => 0, fun i =>
    if i = 0 then ("a_qref".toList)
    else if i = 1 then ("a_qdref".toList)
    else if i = 2 then ("a_tau".toList)
    else ("a_other".toList)⟩

/-- The instance `PdFf::Create` builds on `mC3`: the explicit target
resolves to the `a_qref` actuator, so `id_target = id_qref = 0`. -/
def instC3 : PdFfInst := ⟨2, 1/2, 0, 1, 2, 0⟩

/-- Engine data for claim C3: `ctrl` holds qRef = 1, qdRef = 0,
tauFf = 3/10; measured length 4/5 and velocity 1/10 everywhere; all force
accumulators hold 1. -/
def dC3 : PData :=
  ⟨fun i => if i = 0 then 1 else if i = 1 then 0 else if i = 2 then 3/10 else 0,
   fun _ => 4/5, fun _ => 1/10, fun _ => 1⟩

/-- Claim C3 is false as stated: `PdFf::Compute` zeroes the two input-only
channels' force slots after adding `tau` to the target, so for the
creatable instance whose explicit `target` names the qref actuator, the
target's accumulator is overwritten with 0 rather than incremented by
`tau`: its prior value is not preserved. -/
theorem pdff_target_overwrite_cex :
    Create mC3 0 2 (1/2) (some ("a_qref".toList)) = some instC3 ∧
    (Compute instC3 dC3).actuator_force instC3.id_target ≠
      dC3.actuator_force instC3.id_target + tauOf instC3 dC3 := by
  constructor
  · rfl
  · norm_num [Compute, tauOf, instC3, dC3]

/-- Claim C3 (amended): whenever the resolved target channel is distinct
from the two input-only channels (qref, qdref) — in particular whenever the
target is the tau channel, the default — `PdFf::Compute` reads qRef, qdRef,
tauFf from the bound input channels' `ctrl` slots and qMeasured, qdMeasured
from the target channel's feedback, and adds exactly
`tau = kp*(qRef - qMeasured) + kd*(qdRef - qdMeasured) + tauFf` to the
target channel's force accumulator, preserving its prior value. -/
theorem pdff_compute_adds_tau (inst : PdFfInst) (d : PData)
    (h1 : inst.id_target ≠ inst.id_qref) (h2 : inst.id_target ≠ inst.id_qdref) :
    (Compute inst d).actuator_force inst.id_target =
      d.actuator_force inst.id_target + tauOf inst d := by
  simp [Compute, h1, h2]

/-- The instance used for the C3 witness: same model as `mC3` but with no
explicit target, so the target is the tau channel (id 2). -/
def instW3 : PdFfInst := ⟨2, 1/2, 0, 1, 2, 2⟩

/-- Witness for the amended C3 theorem at the spec's numbers: kp = 2,
kd = 0.5, qRef = 1, qdRef = 0, tauFf = 0.3, qMeasured = 0.8,
qdMeasured = 0.1 give tau = 0.65, which is added on top of the prior
accumulator value 1. -/
theorem pdff_compute_adds_tau_witness :
    Create mC3 0 2 (1/2) none = some instW3 ∧
    (2 : Int) ≠ (0 : Int) ∧ (2 : Int) ≠ (1 : Int) ∧
    tauOf instW3 dC3 = 13/20 ∧
    (Compute instW3 dC3).actuator_force instW3.id_target =
      dC3.actuator_force instW3.id_target + 13/20 := by
  refine ⟨rfl, by decide, by decide, by norm_num [tauOf, instW3, dC3], ?_⟩
  have h := pdff_compute_adds_tau instW3 dC3 (by decide) (by decide)
  rw [show tauOf instW3 dC3 = 13/20 from by norm_num [tauOf, instW3, dC3]] at h
  exact h

end PdFf

namespace Inspector

/-- `InspectorConfig` from `inspector.h`: optional `mode` and `file`
attribute strings and the sampling rate in Hz (default 10). -/
structure InspectorConfig where
  mode : Option String := none
  file : Option String := none
  rate_hz : ℚ := 10

/-- The mutable per-instance state of `Inspector`: the one-time header flag
and the simulation time of the last emission (initialized to -1, i.e.
"never emitted"). -/
structure InspState where
  header_emitted : Bool
  last_emit_time : ℚ
deriving DecidableEq, Repr

/-- The initial inspector state, per the member initializers in
`inspector.h`. -/
def inspInit : InspState := ⟨false, -1⟩

/-- `Inspector::Compute`: skip entirely (no output, no state change) when a
previous emission exists, the rate limit is active, and the elapsed time is
below the period `1/rate`; otherwise record the emission time, emit the
header once, and emit the sample.  The emitted text (header, timestamp,
joint lines, sensor lines) is abstracted to the boolean fact of emission;
rate limiting and instance state are what this model tracks. -/
def inspCompute (cfg : InspectorConfig) (st : InspState) (time : ℚ) :
    InspState × Bool :=
  let period : ℚ := if cfg.rate_hz > 0 then 1 / cfg.rate_hz else 0
  if 0 ≤ st.last_emit_time ∧ 0 < period ∧ time < st.last_emit_time + period then
    (st, false)
  else
    (⟨true, time⟩, true)

/-- A sequence of `Compute` calls at the given simulation times, returning
the per-call emission flags. -/
def inspRun (cfg : InspectorConfig) (st : InspState) : List ℚ → List Bool
  | [] => []
  | t :: ts =>
      let r := inspCompute cfg st t
      r.2 :: inspRun cfg r.1 ts

/-- The inspector configuration with rate 10 Hz used in the claim's
scenario. -/
def cfg10 : InspectorConfig := ⟨none, none, 10⟩

/-- Claim C5: with rate > 0 (period 1/rate), a Compute call at time t emits
nothing and changes no instance state when a previous emission happened at
time t0 ≥ 0 with t < t0 + period; otherwise it emits and records t as the
last emission time; and in the concrete scenario with rate = 10, calls at
times 0.00, 0.05, 0.11 emit on exactly the first and third calls. -/
theorem inspector_rate_limit :
    (∀ (cfg : InspectorConfig) (st : InspState) (t : ℚ), 0 < cfg.rate_hz →
        0 ≤ st.last_emit_time → t < st.last_emit_time + 1 / cfg.rate_hz →
        inspCompute cfg st t = (st, false))
    ∧ (∀ (cfg : InspectorConfig) (st : InspState) (t : ℚ), 0 < cfg.rate_hz →
        ¬ (0 ≤ st.last_emit_time ∧ t < st.last_emit_time + 1 / cfg.rate_hz) →
        inspCompute cfg st t = (⟨true, t⟩, true))
    ∧ inspRun cfg10 inspInit [0, 1/20, 11/100] = [true, false, true] := by
  refine ⟨?_, ?_, ?_⟩
  · intro cfg st t hrate hlast ht
    simp only [inspCompute]
    rw [if_pos]
    exact ⟨hlast, by rw [if_pos hrate]; exact ⟨by positivity, ht⟩⟩
  · intro cfg st t hrate hn
    simp only [inspCompute]
    rw [if_neg]
    intro hc
    rcases hc with ⟨h1, h2, h3⟩
    rw [if_pos hrate] at h3
    exact hn ⟨h1, h3⟩
  · norm_num [inspRun, inspCompute, cfg10, inspInit]

/-- Witness for the rate-limit theorem: with rate 10, a prior emission at
time 0 and a call at time 1/20 < 1/10, the call is skipped with the state
unchanged. -/
theorem inspector_rate_limit_witness :
    (0 : ℚ) < cfg10.rate_hz ∧
    (0 : ℚ) ≤ (InspState.mk true 0).last_emit_time ∧
    (1/20 : ℚ) < (InspState.mk true 0).last_emit_time + 1 / cfg10.rate_hz ∧
    inspCompute cfg10 (InspState.mk true 0) (1/20) = (InspState.mk true 0, false) :=
  ⟨by norm_num [cfg10], by norm_num, by norm_num [cfg10],
    inspector_rate_limit.1 cfg10 (InspState.mk true 0) (1/20)
      (by norm_num [cfg10]) (by norm_num) (by norm_num [cfg10])⟩

end Inspector

namespace Spring

/-- World-space 3-vector (`mjtNum[3]`), over the reals since the spring
computation takes a Euclidean norm. -/
structure V3 where
  x : ℝ
  y : ℝ
  z : ℝ

/-- `mju_sub3`: componentwise difference. -/
def sub3 (a b : V3) : V3 := ⟨a.x - b.x, a.y - b.y, a.z - b.z⟩

/-- `mju_dot3`: Euclidean inner product. -/
def dot3 (a b : V3) : ℝ := a.x * b.x + a.y * b.y + a.z * b.z

/-- `mju_scl3`: scalar multiple. -/
def scl3 (v : V3) (s : ℝ) : V3 := ⟨v.x * s, v.y * s, v.z * s⟩

/-- `mju_norm3`: Euclidean norm. -/
noncomputable def norm3 (v : V3) : ℝ := Real.sqrt (v.x ^ 2 + v.y ^ 2 + v.z ^ 2)

/-- MuJoCo's `mjMINVAL` = 1e-15, the epsilon guard used by
`mju_normalize3`. -/
noncomputable def mjMINVAL : ℝ := 1 / 10 ^ 15

/-- `mju_normalize3` (MuJoCo host runtime, as called by `Spring::Compute`):
normalizes the vector in place and returns the pre-normalization norm; for
norms below `mjMINVAL` the vector is set to the fixed fallback direction
(1, 0, 0). -/
noncomputable def normalize3 (v : V3) : V3 × ℝ :=
  let n := norm3 v
  if n < mjMINVAL then (⟨1, 0, 0⟩, n) else (scl3 v (1 / n), n)

/-- `SpringConfig` from `spring_damper.h`: stiffness, damping, rest length
(negative sentinel = derive from initial separation) and the two resolved
body ids. -/
structure SpringConfig where
  stiffness : ℝ
  damping : ℝ
  rest_length : ℝ
  body1_id : Nat
  body2_id : Nat

/-- The part of `mjModel` read by `Spring::Compute`: reference body
positions (`m->body_pos`). -/
structure SModel where
  body_pos : Nat → V3

/-- The part of `mjData` read and written by `Spring::Compute`: world body
positions (`d->xpos`), per-body velocities as returned in the first three
slots of `mj_objectVelocity` (the source passes 3-element buffers), and the
flat external-force accumulator `d->xfrc_applied` (6 entries per body:
3 force then 3 torque). -/
structure SData where
  xpos : Nat → V3
  vel : Nat → V3
  xfrc_applied : Nat → ℝ

/-- `mju_addTo(arr + base, v, 3)`: add the three components of `v` into the
flat array at offsets base, base+1, base+2. -/
def addTo3 (arr : Nat → ℝ) (base : Nat) (v : V3) : Nat → ℝ := fun i =>
  if i = base then arr i + v.x
  else if i = base + 1 then arr i + v.y
  else if i = base + 2 then arr i + v.z
  else arr i

/-- `mju_subFrom(arr + base, v, 3)`: subtract the three components of `v`
from the flat array at offsets base, base+1, base+2. -/
def subFrom3 (arr : Nat → ℝ) (base : Nat) (v : V3) : Nat → ℝ := fun i =>
  if i = base then arr i - v.x
  else if i = base + 1 then arr i - v.y
  else if i = base + 2 then arr i - v.z
  else arr i

/-- `Spring::Compute`: displacement and distance between the bodies via
`mju_normalize3`; rest length from the config or, for the negative
sentinel, from the reference positions; Hooke force plus damping along the
spring axis; the force vector added to body1's accumulator and subtracted
from body2's. -/
noncomputable def Compute (cfg : SpringConfig) (m : SModel) (d : SData) : SData :=
  let vec0 := sub3 (d.xpos cfg.body2_id) (d.xpos cfg.body1_id)
  let nd := normalize3 vec0
  let vec := nd.1
  let distance := nd.2
  let rest_length : ℝ :=
    if cfg.rest_length < 0 then
      norm3 (sub3 (m.body_pos cfg.body2_id) (m.body_pos cfg.body1_id))
    else cfg.rest_length
  let force_magnitude :=
    cfg.stiffness * (distance - rest_length)
      + cfg.damping * dot3 (sub3 (d.vel cfg.body2_id) (d.vel cfg.body1_id)) vec
  let force_vec := scl3 vec force_magnitude
  let arr1 := addTo3 d.xfrc_applied (6 * cfg.body1_id) force_vec
  let arr2 := subFrom3 arr1 (6 * cfg.body2_id) force_vec
  { d with xfrc_applied := arr2 }

/-- Claim C10: one `Spring::Compute` call modifies only the three force
components (offsets 0..2) of the external-force accumulator entries of
body1 and body2; the torque components of those entries, the accumulator
entries of every other body, and every other modelled field of the engine
state are unchanged. -/
theorem spring_compute_frame (cfg : SpringConfig) (m : SModel) (d : SData) :
    (Compute cfg m d).xpos = d.xpos ∧ (Compute cfg m d).vel = d.vel ∧
    ∀ i : Nat, i ≠ 6 * cfg.body1_id → i ≠ 6 * cfg.body1_id + 1 →
      i ≠ 6 * cfg.body1_id + 2 → i ≠ 6 * cfg.body2_id →
      i ≠ 6 * cfg.body2_id + 1 → i ≠ 6 * cfg.body2_id + 2 →
      (Compute cfg m d).xfrc_applied i = d.xfrc_applied i := by
  refine ⟨rfl, rfl, ?_⟩
  intro i h1 h2 h3 h4 h5 h6
  simp [Compute, addTo3, subFrom3, h1, h2, h3, h4, h5, h6]

/-- Spring configuration for the witnesses: stiffness 100, damping 10, rest
length 1, acting between bodies 0 and 1. -/
noncomputable def cfgW : SpringConfig := ⟨100, 10, 1, 0, 1⟩

/-- Reference model for the witnesses (reference positions unused since
`rest_length` is non-negative). -/
noncomputable def mW : SModel := ⟨fun _ => ⟨0, 0, 0⟩⟩

/-- Engine data for the C10 and C8 witnesses: body 0 at the origin, body 1
at (1.2, 0, 0), everything at rest, zero accumulators. -/
noncomputable def dW : SData :=
  ⟨fun b => if b = 0 then ⟨0, 0, 0⟩ else ⟨6/5, 0, 0⟩,
   fun _ => ⟨0, 0, 0⟩, fun _ => 0⟩

/-- Witness for the frame theorem: at the concrete scene `dW`, the torque
offset 3 of body 0's accumulator entry is untouched by `Compute`. -/
theorem spring_compute_frame_witness :
    (3 : Nat) ≠ 6 * cfgW.body1_id ∧ (3 : Nat) ≠ 6 * cfgW.body1_id + 1 ∧
    (3 : Nat) ≠ 6 * cfgW.body1_id + 2 ∧ (3 : Nat) ≠ 6 * cfgW.body2_id ∧
    (3 : Nat) ≠ 6 * cfgW.body2_id + 1 ∧ (3 : Nat) ≠ 6 * cfgW.body2_id + 2 ∧
    (Compute cfgW mW dW).xfrc_applied 3 = dW.xfrc_applied 3 :=
  ⟨by decide, by decide, by decide, by decide, by decide, by decide,
    (spring_compute_frame cfgW mW dW).2.2 3 (by decide) (by decide) (by decide)
      (by decide) (by decide) (by decide)⟩

end Spring

namespace Spring

/-- `addTo3` at the base offset. -/
theorem addTo3_base (arr : Nat → ℝ) (base : Nat) (v : V3) :
    addTo3 arr base v base = arr base + v.x := by
  simp [addTo3]

/-- `addTo3` at offset base+1. -/
theorem addTo3_base1 (arr : Nat → ℝ) (base : Nat) (v : V3) :
    addTo3 arr base v (base + 1) = arr (base + 1) + v.y := by
  unfold addTo3
  rw [if_neg (by omega), if_pos rfl]

/-- `addTo3` at offset base+2. -/
theorem addTo3_base2 (arr : Nat → ℝ) (base : Nat) (v : V3) :
    addTo3 arr base v (base + 2) = arr (base + 2) + v.z := by
  unfold addTo3
  rw [if_neg (by omega), if_neg (by omega), if_pos rfl]

/-- `addTo3` elsewhere. -/
theorem addTo3_other (arr : Nat → ℝ) (base : Nat) (v : V3) (i : Nat)
    (h1 : i ≠ base) (h2 : i ≠ base + 1) (h3 : i ≠ base + 2) :
    addTo3 arr base v i = arr i := by
  simp [addTo3, h1, h2, h3]

/-- `subFrom3` at the base offset. -/
theorem subFrom3_base (arr : Nat → ℝ) (base : Nat) (v : V3) :
    subFrom3 arr base v base = arr base - v.x := by
  simp [subFrom3]

/-- `subFrom3` at offset base+1. -/
theorem subFrom3_base1 (arr : Nat → ℝ) (base : Nat) (v : V3) :
    subFrom3 arr base v (base + 1) = arr (base + 1) - v.y := by
  unfold subFrom3
  rw [if_neg (by omega), if_pos rfl]

/-- `subFrom3` at offset base+2. -/
theorem subFrom3_base2 (arr : Nat → ℝ) (base : Nat) (v : V3) :
    subFrom3 arr base v (base + 2) = arr (base + 2) - v.z := by
  unfold subFrom3
  rw [if_neg (by omega), if_neg (by omega), if_pos rfl]

/-- `subFrom3` elsewhere. -/
theorem subFrom3_other (arr : Nat → ℝ) (base : Nat) (v : V3) (i : Nat)
    (h1 : i ≠ base) (h2 : i ≠ base + 1) (h3 : i ≠ base + 2) :
    subFrom3 arr base v i = arr i := by
  simp [subFrom3, h1, h2, h3]

/-- The claim's force vector `u * (stiffness * (dist - restLength))`, with
`u` the unit direction from body1 to body2 (displacement scaled by the
inverse of its norm). -/
noncomputable def springForceVec (cfg : SpringConfig) (d : SData) : V3 :=
  let vec0 := sub3 (d.xpos cfg.body2_id) (d.xpos cfg.body1_id)
  scl3 (scl3 vec0 (1 / norm3 vec0))
    (cfg.stiffness * (norm3 vec0 - cfg.rest_length))

/-- On coincident inputs `sub3` yields the zero vector. -/
theorem sub3_self (a : V3) : sub3 a a = ⟨0, 0, 0⟩ := by
  simp [sub3]

/-- The norm of the zero vector is zero. -/
theorem norm3_zero : norm3 ⟨0, 0, 0⟩ = 0 := by
  simp [norm3]

/-- Claim C8: for a configured (non-negative) rest length, bodies at
distance at least `mjMINVAL` (the guard of `mju_normalize3`; the
sub-epsilon case is the degenerate-geometry claim) and zero relative
velocity, one `Compute` call adds the vector `u * stiffness*(dist - L)`
componentwise into body1's external-force accumulator entry and subtracts
exactly the same vector from body2's — equal and opposite, additive on top
of the prior accumulator values. -/
theorem spring_force_law (cfg : SpringConfig) (m : SModel) (d : SData)
    (hL : 0 ≤ cfg.rest_length)
    (hv : d.vel cfg.body1_id = d.vel cfg.body2_id)
    (hdist : mjMINVAL ≤
      norm3 (sub3 (d.xpos cfg.body2_id) (d.xpos cfg.body1_id))) :
    (Compute cfg m d).xfrc_applied (6 * cfg.body1_id) =
        d.xfrc_applied (6 * cfg.body1_id) + (springForceVec cfg d).x ∧
    (Compute cfg m d).xfrc_applied (6 * cfg.body1_id + 1) =
        d.xfrc_applied (6 * cfg.body1_id + 1) + (springForceVec cfg d).y ∧
    (Compute cfg m d).xfrc_applied (6 * cfg.body1_id + 2) =
        d.xfrc_applied (6 * cfg.body1_id + 2) + (springForceVec cfg d).z ∧
    (Compute cfg m d).xfrc_applied (6 * cfg.body2_id) =
        d.xfrc_applied (6 * cfg.body2_id) - (springForceVec cfg d).x ∧
    (Compute cfg m d).xfrc_applied (6 * cfg.body2_id + 1) =
        d.xfrc_applied (6 * cfg.body2_id + 1) - (springForceVec cfg d).y ∧
    (Compute cfg m d).xfrc_applied (6 * cfg.body2_id + 2) =
        d.xfrc_applied (6 * cfg.body2_id + 2) - (springForceVec cfg d).z := by
  have hnorm : ¬ (norm3 (sub3 (d.xpos cfg.body2_id) (d.xpos cfg.body1_id))
      < mjMINVAL) := not_lt.mpr hdist
  have hL' : ¬ (cfg.rest_length < 0) := not_lt.mpr hL
  have hvz : sub3 (d.vel cfg.body2_id) (d.vel cfg.body1_id) = ⟨0, 0, 0⟩ := by
    rw [hv, sub3_self]
  have hne : cfg.body1_id ≠ cfg.body2_id := by
    intro he
    rw [he, sub3_self, norm3_zero] at hdist
    norm_num [mjMINVAL] at hdist
  simp only [Compute, normalize3]
  rw [if_neg hnorm, if_neg hL']
  rw [hvz]
  have hdot : dot3 (⟨0, 0, 0⟩ : V3)
      (scl3 (sub3 (d.xpos cfg.body2_id) (d.xpos cfg.body1_id))
        (1 / norm3 (sub3 (d.xpos cfg.body2_id) (d.xpos cfg.body1_id)))) = 0 := by
    simp [dot3]
  rw [hdot]
  refine ⟨?_, ?_, ?_, ?_, ?_, ?_⟩
  · rw [subFrom3_other _ _ _ _ (by omega) (by omega) (by omega), addTo3_base]
    simp only [springForceVec, scl3]
    ring_nf
  · rw [subFrom3_other _ _ _ _ (by omega) (by omega) (by omega), addTo3_base1]
    simp only [springForceVec, scl3]
    ring_nf
  · rw [subFrom3_other _ _ _ _ (by omega) (by omega) (by omega), addTo3_base2]
    simp only [springForceVec, scl3]
    ring_nf
  · rw [subFrom3_base, addTo3_other _ _ _ _ (by omega) (by omega) (by omega)]
    simp only [springForceVec, scl3]
    ring_nf
  · rw [subFrom3_base1, addTo3_other _ _ _ _ (by omega) (by omega) (by omega)]
    simp only [springForceVec, scl3]
    ring_nf
  · rw [subFrom3_base2, addTo3_other _ _ _ _ (by omega) (by omega) (by omega)]
    simp only [springForceVec, scl3]
    ring_nf

end Spring

namespace Spring

/-- Engine data for the zero-extension conjunct of the C8 witness: body 1
at distance exactly 1.0 (the configured rest length) from body 0, at
rest. -/
noncomputable def d1W : SData :=
  ⟨fun b => if b = 0 then ⟨0, 0, 0⟩ else ⟨1, 0, 0⟩,
   fun _ => ⟨0, 0, 0⟩, fun _ => 0⟩

/-- Witness for the force law at the spec's numbers: stiffness 100, damping
10, rest length 1.0; at separation 1.2 the force added to body 0's
accumulator is 20 along the body1→body2 axis and −20 on body 1's; at
separation 1.0 both added forces are zero. -/
theorem spring_force_law_witness :
    0 ≤ cfgW.rest_length ∧
    dW.vel cfgW.body1_id = dW.vel cfgW.body2_id ∧
    mjMINVAL ≤ norm3 (sub3 (dW.xpos cfgW.body2_id) (dW.xpos cfgW.body1_id)) ∧
    (Compute cfgW mW dW).xfrc_applied 0 = 20 ∧
    (Compute cfgW mW dW).xfrc_applied 6 = -20 ∧
    (Compute cfgW mW d1W).xfrc_applied 0 = 0 ∧
    (Compute cfgW mW d1W).xfrc_applied 6 = 0 := by
  have hsub : sub3 (dW.xpos cfgW.body2_id) (dW.xpos cfgW.body1_id) =
      ⟨6/5, 0, 0⟩ := by
    norm_num [sub3, dW, cfgW]
  have hn : norm3 (sub3 (dW.xpos cfgW.body2_id) (dW.xpos cfgW.body1_id)) =
      6/5 := by
    rw [hsub]
    simp only [norm3]
    rw [show ((6:ℝ)/5) ^ 2 + (0:ℝ) ^ 2 + (0:ℝ) ^ 2 = (6/5) ^ 2 by ring]
    rw [Real.sqrt_sq (by norm_num)]
  have hsub1 : sub3 (d1W.xpos cfgW.body2_id) (d1W.xpos cfgW.body1_id) =
      ⟨1, 0, 0⟩ := by
    norm_num [sub3, d1W, cfgW]
  have hn1 : norm3 (sub3 (d1W.xpos cfgW.body2_id) (d1W.xpos cfgW.body1_id)) =
      1 := by
    rw [hsub1]
    simp only [norm3]
    rw [show ((1:ℝ)) ^ 2 + (0:ℝ) ^ 2 + (0:ℝ) ^ 2 = (1:ℝ) ^ 2 by ring]
    rw [Real.sqrt_sq (by norm_num)]
  have h1 := spring_force_law cfgW mW dW (by norm_num [cfgW]) rfl
    (by rw [hn]; norm_num [mjMINVAL])
  have h2 := spring_force_law cfgW mW d1W (by norm_num [cfgW]) rfl
    (by rw [hn1]; norm_num [mjMINVAL])
  have hfx : (springForceVec cfgW dW).x = 20 := by
    simp only [springForceVec]
    rw [hn, hsub]
    norm_num [scl3, cfgW]
  have hfx1 : (springForceVec cfgW d1W).x = 0 := by
    simp only [springForceVec]
    rw [hn1, hsub1]
    norm_num [scl3, cfgW]
  refine ⟨by norm_num [cfgW], rfl, by rw [hn]; norm_num [mjMINVAL],
    ?_, ?_, ?_, ?_⟩
  · have h := h1.1
    rw [hfx] at h
    simpa [dW, cfgW] using h
  · have h := h1.2.2.2.1
    rw [hfx] at h
    simpa [dW, cfgW] using h
  · have h := h2.1
    rw [hfx1] at h
    simpa [d1W, cfgW] using h
  · have h := h2.2.2.2.1
    rw [hfx1] at h
    simpa [d1W, cfgW] using h

end Spring

namespace Spring

/-- Engine data for claim C4: both bodies at the origin (zero-length
spring), at rest, zero accumulators. -/
noncomputable def dCo : SData :=
  ⟨fun _ => ⟨0, 0, 0⟩, fun _ => ⟨0, 0, 0⟩, fun _ => 0⟩

/-- Claim C4 is false as stated: with both bodies at the same world
position and rest length 1.0 (stiffness 100), `Compute` does not apply zero
force — `mju_normalize3` falls back to the direction (1, 0, 0) while
returning distance 0, so a force of magnitude 100*(0 − 1) = −100 is added
along the x-axis to body 0's accumulator (here initially 0). -/
theorem spring_zero_length_cex :
    dCo.xpos cfgW.body1_id = dCo.xpos cfgW.body2_id ∧
    (Compute cfgW mW dCo).xfrc_applied (6 * cfgW.body1_id) = -100 ∧
    dCo.xfrc_applied (6 * cfgW.body1_id) = 0 := by
  refine ⟨rfl, ?_, rfl⟩
  have hsub : sub3 (dCo.xpos cfgW.body2_id) (dCo.xpos cfgW.body1_id) =
      ⟨0, 0, 0⟩ := sub3_self _
  have hn : norm3 (sub3 (dCo.xpos cfgW.body2_id) (dCo.xpos cfgW.body1_id)) =
      0 := by rw [hsub, norm3_zero]
  simp only [Compute, normalize3]
  rw [hn]
  rw [if_pos (by norm_num [mjMINVAL])]
  rw [if_neg (by norm_num [cfgW] : ¬ (cfgW.rest_length < 0))]
  norm_num [subFrom3, addTo3, scl3, dot3, sub3, cfgW, dCo]

/-- The force magnitude `Compute` produces in the degenerate coincident
case: distance 0 against the effective rest length, plus damping times the
x-component of the relative velocity (the projection onto the fallback
direction (1, 0, 0)). -/
noncomputable def springFallbackMag (cfg : SpringConfig) (m : SModel)
    (d : SData) : ℝ :=
  cfg.stiffness * (0 -
      (if cfg.rest_length < 0 then
        norm3 (sub3 (m.body_pos cfg.body2_id) (m.body_pos cfg.body1_id))
      else cfg.rest_length))
    + cfg.damping * ((d.vel cfg.body2_id).x - (d.vel cfg.body1_id).x)

/-- Claim C4 (amended): when body1 and body2 of a spring-damper instance
(distinct bodies) occupy the same world position, `Compute` is still fully
defined — no undefined normalization — but instead of zero direction and
zero force it uses `mju_normalize3`'s fallback direction (1, 0, 0) and
applies the force `springFallbackMag` (in general nonzero: −stiffness times
the effective rest length plus the damping projection) along that axis to
body1's accumulator and its negation to body2's; the applied force is zero
only when that magnitude vanishes. -/
theorem spring_zero_length_fallback (cfg : SpringConfig) (m : SModel)
    (d : SData) (hpos : d.xpos cfg.body1_id = d.xpos cfg.body2_id)
    (hne : cfg.body1_id ≠ cfg.body2_id) :
    (Compute cfg m d).xfrc_applied (6 * cfg.body1_id) =
        d.xfrc_applied (6 * cfg.body1_id) + springFallbackMag cfg m d ∧
    (Compute cfg m d).xfrc_applied (6 * cfg.body1_id + 1) =
        d.xfrc_applied (6 * cfg.body1_id + 1) ∧
    (Compute cfg m d).xfrc_applied (6 * cfg.body1_id + 2) =
        d.xfrc_applied (6 * cfg.body1_id + 2) ∧
    (Compute cfg m d).xfrc_applied (6 * cfg.body2_id) =
        d.xfrc_applied (6 * cfg.body2_id) - springFallbackMag cfg m d ∧
    (Compute cfg m d).xfrc_applied (6 * cfg.body2_id + 1) =
        d.xfrc_applied (6 * cfg.body2_id + 1) ∧
    (Compute cfg m d).xfrc_applied (6 * cfg.body2_id + 2) =
        d.xfrc_applied (6 * cfg.body2_id + 2) := by
  have hsub : sub3 (d.xpos cfg.body2_id) (d.xpos cfg.body1_id) =
      ⟨0, 0, 0⟩ := by rw [← hpos, sub3_self]
  have hn : norm3 (sub3 (d.xpos cfg.body2_id) (d.xpos cfg.body1_id)) = 0 := by
    rw [hsub, norm3_zero]
  simp only [Compute, normalize3]
  rw [hn, if_pos (by norm_num [mjMINVAL])]
  refine ⟨?_, ?_, ?_, ?_, ?_, ?_⟩
  · rw [subFrom3_other _ _ _ _ (by omega) (by omega) (by omega), addTo3_base]
    simp only [springFallbackMag, scl3, dot3, sub3]
    ring_nf
  · rw [subFrom3_other _ _ _ _ (by omega) (by omega) (by omega), addTo3_base1]
    simp [scl3]
  · rw [subFrom3_other _ _ _ _ (by omega) (by omega) (by omega), addTo3_base2]
    simp [scl3]
  · rw [subFrom3_base, addTo3_other _ _ _ _ (by omega) (by omega) (by omega)]
    simp only [springFallbackMag, scl3, dot3, sub3]
    ring_nf
  · rw [subFrom3_base1, addTo3_other _ _ _ _ (by omega) (by omega) (by omega)]
    simp [scl3]
  · rw [subFrom3_base2, addTo3_other _ _ _ _ (by omega) (by omega) (by omega)]
    simp [scl3]

/-- Witness for the amended degenerate-case theorem: both bodies at the
origin with stiffness 100, damping 10, rest length 1 and zero velocities
give fallback magnitude −100, added to body 0's entry and subtracted from
body 1's. -/
theorem spring_zero_length_fallback_witness :
    dCo.xpos cfgW.body1_id = dCo.xpos cfgW.body2_id ∧
    cfgW.body1_id ≠ cfgW.body2_id ∧
    springFallbackMag cfgW mW dCo = -100 ∧
    (Compute cfgW mW dCo).xfrc_applied (6 * cfgW.body2_id) = 100 := by
  have hmag : springFallbackMag cfgW mW dCo = -100 := by
    norm_num [springFallbackMag, cfgW, dCo]
  refine ⟨rfl, by norm_num [cfgW], hmag, ?_⟩
  have h := (spring_zero_length_fallback cfgW mW dCo rfl
    (by norm_num [cfgW])).2.2.2.1
  rw [hmag] at h
  simpa [dCo] using h

end Spring

namespace Destroy

/-- An `Inspector` object as owned through the engine's per-instance slot:
its configuration and the optionally opened file handle. -/
structure InspObj where
  config : Inspector.InspectorConfig
  file : Option Nat

/-- The `Spring::RegisterPlugin` destroy lambda:
`delete reinterpret_cast<Spring*>(d->plugin_data[instance]);
d->plugin_data[instance] = 0;`.  The slot is modelled as an option (none =
stored handle 0); C++ `delete` of a null pointer is a defined no-op, so the
callback is total: it frees the object exactly when one is present and
always clears the slot.  The boolean reports whether an object was
freed. -/
def springDestroy (slot : Option Spring.SpringConfig) :
    Option Spring.SpringConfig × Bool :=
  (none, slot.isSome)

/-- The `PdFf::RegisterPlugin` destroy lambda — the same delete-and-clear
pattern over the `PdFf` object. -/
def pdffDestroy (slot : Option PdFf.PdFfInst) :
    Option PdFf.PdFfInst × Bool :=
  (none, slot.isSome)

/-- The `Inspector::RegisterPlugin` destroy lambda: an explicit null check
guards the resource release (the file is closed only when mode=="file" and
the handle is non-null), then the object is deleted and the slot cleared.
The two booleans report (object freed, file closed). -/
def inspectorDestroy (slot : Option InspObj) :
    Option InspObj × Bool × Bool :=
  match slot with
  | none => (none, false, false)
  | some obj =>
      if obj.config.mode = some "file" ∧ obj.file.isSome then (none, true, true)
      else (none, true, false)

/-- Claim C9: for a plugin instance whose create failed (null handle in the
per-instance slot), each of the three destroy callbacks is total (no null
dereference: Spring and PdFf rely on C++ `delete nullptr` being a defined
no-op, Inspector checks the handle explicitly) and is a no-op apart from
clearing the slot: nothing is freed, no file is closed.  The contrast
conjunct shows a live Inspector instance does release its file. -/
theorem destroy_null_handle_noop :
    springDestroy none = (none, false) ∧
    pdffDestroy none = (none, false) ∧
    inspectorDestroy none = (none, false, false) ∧
    inspectorDestroy (some ⟨⟨some "file", some "log", 10⟩, some 3⟩) =
      (none, true, true) := by
  refine ⟨rfl, rfl, rfl, ?_⟩
  simp [inspectorDestroy]

end Destroy
